import Mathlib

/-!
Verification of the HoltsmarkDistributionFP64 error-visualization script
(`HoltsmarkDistributionFP64ErrorVis/_main.py`).

The script iterates over seven hard-coded targets, loads a CSV per target,
sanitizes the relative-error column with
`err = np.where(np.abs(y) < 1e-305, 0, err)`, renders a two-panel figure,
applies per-target axis-scale options (`logx`, `logy`), unconditionally sets
the bottom panel's y-axis to log scale, and saves the figure.

Floating-point values are embedded as an inductive type with an exact
rational payload for finite values plus the IEEE special values `nan`,
`inf`, `neginf`.  The comparison `<` follows IEEE semantics: any comparison
involving NaN is false.  The literal threshold `1e-305` is modelled as the
exact rational `1 / 10 ^ 305`; all inputs appearing in the claims are many
orders of magnitude away from the threshold, so rounding of the literal is
irrelevant to the statements proved here.
-/

/-- A shallow model of an IEEE double: exact rational finite values plus
the special values NaN, +inf, -inf. -/
inductive FVal where
  | fin (q : ℚ)
  | nan
  | inf
  | neginf
deriving DecidableEq, Repr

/-- `np.abs`: absolute value; `abs(nan) = nan`, `abs(±inf) = inf`. -/
def FVal.abs : FVal → FVal
  | .fin q => .fin |q|
  | .nan => .nan
  | .inf => .inf
  | .neginf => .inf

/-- IEEE `<` comparison: every comparison involving NaN is false. -/
def FVal.lt : FVal → FVal → Bool
  | .nan, _ => false
  | _, .nan => false
  | .fin a, .fin b => decide (a < b)
  | .fin _, .inf => true
  | .fin _, .neginf => false
  | .inf, _ => false
  | .neginf, .neginf => false
  | .neginf, _ => true

/-- The literal threshold `1e-305` from
`err = np.where(np.abs(y) < 1e-305, 0, err)`. -/
def threshold : FVal := .fin (1 / 10 ^ 305)

/-- One element of `np.where(np.abs(y) < 1e-305, 0, err)`:
if `|y| < 1e-305` the sanitized error is `0`, otherwise the raw error. -/
def sanitizeVal (y e : FVal) : FVal :=
  if (FVal.abs y).lt threshold then .fin 0 else e

/-- The whole sanitization `err = np.where(np.abs(y) < 1e-305, 0, err)`,
applied elementwise over the aligned columns. -/
def sanitize (y err : List FVal) : List FVal :=
  List.zipWith sanitizeVal y err

/-- Axis scale of a matplotlib axis: linear (the default) or logarithmic. -/
inductive Scale where
  | linear
  | log
deriving DecidableEq, Repr

/-- The scales of the four axes of the two stacked panels:
`ax1` is the top (value) panel, `ax2` the bottom (error) panel. -/
structure AxesConfig where
  ax1x : Scale
  ax1y : Scale
  ax2x : Scale
  ax2y : Scale
deriving DecidableEq, Repr

/-- The axis-scale configuration performed by the script for one target:
both axes start out linear (matplotlib default); if `'logx'` is in the
target's option list both panels' x-axes are set to log; if `'logy'` is in
the option list the top panel's y-axis is set to log; finally the bottom
panel's y-axis is unconditionally set to log (`ax2.set_yscale('log')`). -/
def configureAxes (option : List String) : AxesConfig :=
  let c : AxesConfig := ⟨.linear, .linear, .linear, .linear⟩
  let c := if "logx" ∈ option then { c with ax1x := .log, ax2x := .log } else c
  let c := if "logy" ∈ option then { c with ax1y := .log } else c
  { c with ax2y := .log }

/-- The hard-coded `targets` table of the script. -/
def targets : List String :=
  [ "pdf_approx",
    "pdflimit_approx",
    "cdflower_approx",
    "cdfupperlimit_approx",
    "quantile_approx",
    "quantilelowerlimit_approx",
    "quantileupperlimit_approx" ]

/-- The hard-coded `options` table of the script, positionally aligned
with `targets`. -/
def options : List (List String) :=
  [ [],
    ["logx", "logy"],
    [],
    ["logx", "logy"],
    [],
    ["logx"],
    ["logx", "logy"] ]

/-- The three aligned columns extracted from one target's CSV. -/
structure Dataset where
  x : List FVal
  y : List FVal
  err : List FVal
deriving DecidableEq, Repr

/-- The figure produced for one target: the two plotted curves, the two
y-axis labels and the four axis scales. -/
structure Figure where
  topCurve : List (FVal × FVal)
  bottomCurve : List (FVal × FVal)
  topYLabel : String
  bottomYLabel : String
  axes : AxesConfig
deriving DecidableEq, Repr

/-- The pure body of one loop iteration: sanitize the error column, plot
`x` vs `y_actual` on top and `x` vs sanitized error on the bottom, label
the y-axes `'actual'` and `'error(rate)'`, and configure the axis scales. -/
def renderTarget (data : Dataset) (option : List String) : Figure :=
  { topCurve := data.x.zip data.y
    bottomCurve := data.x.zip (sanitize data.y data.err)
    topYLabel := "actual"
    bottomYLabel := "error(rate)"
    axes := configureAxes option }

/-- The main loop over `zip targets options`.  Each step (load + render +
save, collapsed into `step`) may fail; a failure aborts the loop at once
(Python exceptions propagate out of the `for` loop), returning the figures
saved before the failure together with the error. -/
def runLoop {E : Type} (step : String × List String → Except E Figure) :
    List (String × List String) → List (String × Figure) × Option E
  | [] => ([], none)
  | p :: rest =>
    match step p with
    | .error e => ([], some e)
    | .ok fig =>
      let r := runLoop step rest
      ((p.1, fig) :: r.1, r.2)

/-- A concrete figure (rendering of the empty dataset with no options),
used to instantiate loop steps on concrete inputs. -/
def exampleFigure : Figure := renderTarget ⟨[], [], []⟩ []

/-- A concrete loop step that fails (as if the CSV were missing) exactly
on the target `cdflower_approx` and succeeds elsewhere. -/
def failingStep (p : String × List String) : Except String Figure :=
  if p.1 = "cdflower_approx" then Except.error "DataUnavailable"
  else Except.ok exampleFigure

/-! ## Helper lemmas shared between claims -/

/-- Pointwise characterization of `sanitize` at a valid row index. -/
theorem sanitize_getD (y err : List FVal) (i : ℕ)
    (hy : i < y.length) (he : i < err.length) :
    (sanitize y err).getD i (.fin 0) =
      if (FVal.abs (y.getD i (.fin 0))).lt threshold then FVal.fin 0
      else err.getD i (.fin 0) := by
  induction y generalizing err i with
  | nil => simp at hy
  | cons a y ih =>
    cases err with
    | nil => simp at he
    | cons b err =>
      cases i with
      | zero => simp [sanitize, sanitizeVal]
      | succ n =>
        show (sanitize y err).getD n (.fin 0) = _
        exact ih err n (by simpa using hy) (by simpa using he)

/-- One sanitization step is idempotent pointwise. -/
theorem sanitizeVal_idem (y e : FVal) :
    sanitizeVal y (sanitizeVal y e) = sanitizeVal y e := by
  simp only [sanitizeVal]
  split <;> simp_all

/-- Sanitization of lists is idempotent (no length assumption needed). -/
theorem sanitize_sanitize (y err : List FVal) :
    sanitize y (sanitize y err) = sanitize y err := by
  induction y generalizing err with
  | nil => rfl
  | cons a y ih =>
    cases err with
    | nil => rfl
    | cons b err =>
      show sanitizeVal a (sanitizeVal a b) :: sanitize y (sanitize y err)
          = sanitizeVal a b :: sanitize y err
      rw [sanitizeVal_idem, ih]

/-- A finite value whose absolute value is below the threshold passes the
comparison `|y| < 1e-305`. -/
theorem abs_lt_threshold {q : ℚ} (h : |q| < 1 / 10 ^ 305) :
    (FVal.abs (.fin q)).lt threshold = true := by
  simp only [FVal.abs, threshold, FVal.lt, decide_eq_true_eq]
  exact h

/-- A finite value whose absolute value is at or above the threshold fails
the comparison `|y| < 1e-305`. -/
theorem abs_ge_threshold {q : ℚ} (h : 1 / 10 ^ 305 ≤ |q|) :
    (FVal.abs (.fin q)).lt threshold = false := by
  simp only [FVal.abs, threshold, FVal.lt, decide_eq_false_iff_not, not_lt]
  exact h

/-! ## Claim theorems -/

/-- C1: for every valid row index `i`, if `|y_actual[i]| < 1e-305` the
sanitized error at `i` is `0` regardless of the raw error (including
NaN/inf raw errors); otherwise the sanitized error at `i` equals the raw
error at `i` exactly. -/
theorem sanitize_threshold_rule (y err : List FVal) (i : ℕ)
    (hy : i < y.length) (he : i < err.length) :
    ((FVal.abs (y.getD i (.fin 0))).lt threshold = true →
      (sanitize y err).getD i (.fin 0) = FVal.fin 0) ∧
    ((FVal.abs (y.getD i (.fin 0))).lt threshold = false →
      (sanitize y err).getD i (.fin 0) = err.getD i (.fin 0)) := by
  refine ⟨fun h => ?_, fun h => ?_⟩
  · rw [sanitize_getD y err i hy he, if_pos h]
  · rw [sanitize_getD y err i hy he,
      if_neg (by rw [h]; exact Bool.false_ne_true)]

/-- Witness for C1 at concrete rows: row 0 has `|2e-310| < 1e-305`, so the
raw error `5` is suppressed to `0`; row 1 has `|1/2| >= 1e-305`, so the raw
error `nan` passes through. -/
theorem sanitize_threshold_rule_witness :
    (sanitize [FVal.fin (2 / 10 ^ 310), FVal.fin (1 / 2)]
        [FVal.fin 5, FVal.nan]).getD 0 (.fin 0) = FVal.fin 0 ∧
    (sanitize [FVal.fin (2 / 10 ^ 310), FVal.fin (1 / 2)]
        [FVal.fin 5, FVal.nan]).getD 1 (.fin 0) = FVal.nan := by
  constructor
  · exact (sanitize_threshold_rule [FVal.fin (2 / 10 ^ 310), FVal.fin (1 / 2)]
      [FVal.fin 5, FVal.nan] 0 (by decide) (by decide)).1
      (abs_lt_threshold (by rw [abs_of_nonneg (by norm_num)]; norm_num))
  · exact (sanitize_threshold_rule [FVal.fin (2 / 10 ^ 310), FVal.fin (1 / 2)]
      [FVal.fin 5, FVal.nan] 1 (by decide) (by decide)).2
      (abs_ge_threshold (by rw [abs_of_nonneg (by norm_num)]; norm_num))

/-- C2: for every option list (hence for every target), the bottom (error)
panel's y-axis scale is logarithmic. -/
theorem bottom_panel_always_log (option : List String) :
    (configureAxes option).ax2y = Scale.log := rfl

/-- C3: `logx` in a target's options sets both panels' x-axes to log,
`logy` sets only the top panel's y-axis to log, and the bottom panel's
y-axis is log independently of `logy`. -/
theorem axis_option_rule (option : List String) :
    (configureAxes option).ax1x
        = (if "logx" ∈ option then Scale.log else Scale.linear) ∧
    (configureAxes option).ax2x
        = (if "logx" ∈ option then Scale.log else Scale.linear) ∧
    (configureAxes option).ax1y
        = (if "logy" ∈ option then Scale.log else Scale.linear) ∧
    (configureAxes option).ax2y = Scale.log := by
  simp only [configureAxes]
  split <;> split <;> simp

/-- C4: the hard-coded `targets` and `options` tables each have exactly
seven entries, `targets` is the fixed list of seven names, and zipping
pairs each target with the options entry at the same position. -/
theorem tables_parallel :
    targets.length = 7 ∧ options.length = 7 ∧
    targets = [ "pdf_approx", "pdflimit_approx", "cdflower_approx",
      "cdfupperlimit_approx", "quantile_approx", "quantilelowerlimit_approx",
      "quantileupperlimit_approx" ] ∧
    targets.zip options =
      [ ("pdf_approx", []),
        ("pdflimit_approx", ["logx", "logy"]),
        ("cdflower_approx", []),
        ("cdfupperlimit_approx", ["logx", "logy"]),
        ("quantile_approx", []),
        ("quantilelowerlimit_approx", ["logx"]),
        ("quantileupperlimit_approx", ["logx", "logy"]) ] :=
  ⟨rfl, rfl, rfl, rfl⟩

/-- C5: the first target is `pdf_approx` with empty options, and on the
rows `(x=1, y=2e-310, err=5)`, `(x=2, y=1/2, err=1/100)`,
`(x=3, y=-1e-310, err=16/5)` the sanitized error sequence is
`[0, 1/100, 0]`. -/
theorem scenario_pdf_approx :
    (targets.zip options).getD 0 ("", ["logx"]) = ("pdf_approx", []) ∧
    sanitize
        [FVal.fin (2 / 10 ^ 310), FVal.fin (1 / 2), FVal.fin (-(1 / 10 ^ 310))]
        [FVal.fin 5, FVal.fin (1 / 100), FVal.fin (16 / 5)]
      = [FVal.fin 0, FVal.fin (1 / 100), FVal.fin 0] := by
  have h1 : (FVal.abs (FVal.fin (2 / 10 ^ 310))).lt threshold = true :=
    abs_lt_threshold (by rw [abs_of_nonneg (by norm_num)]; norm_num)
  have h2 : (FVal.abs (FVal.fin (1 / 2))).lt threshold = false :=
    abs_ge_threshold (by rw [abs_of_nonneg (by norm_num)]; norm_num)
  have h3 : (FVal.abs (FVal.fin (-(1 / 10 ^ 310)))).lt threshold = true :=
    abs_lt_threshold (by rw [abs_neg, abs_of_nonneg (by norm_num)]; norm_num)
  refine ⟨rfl, ?_⟩
  simp only [sanitize, List.zipWith_cons_cons, List.zipWith_nil_right,
    sanitizeVal, h1, h2, h3]
  simp

/-- C6: the fourth table entry is `cdfupperlimit_approx` with options
`['logx', 'logy']`, and for any dataset the rendered figure for those
options has all four axes logarithmic: the top panel is log-log and the
bottom panel has log x together with the unconditional log y. -/
theorem scenario_cdfupperlimit_approx :
    (targets.zip options).getD 3 ("", []) =
      ("cdfupperlimit_approx", ["logx", "logy"]) ∧
    ∀ data : Dataset,
      (renderTarget data ["logx", "logy"]).axes =
        ⟨Scale.log, Scale.log, Scale.log, Scale.log⟩ := by
  exact ⟨rfl, fun data => rfl⟩

/-- C9: for a row whose `y_actual` is NaN, the comparison
`|y_actual| < 1e-305` evaluates to false, so the raw error passes through
unchanged instead of being suppressed to `0`. -/
theorem nan_reference_passthrough (y err : List FVal) (i : ℕ)
    (hy : i < y.length) (he : i < err.length)
    (hn : y.getD i (.fin 0) = FVal.nan) :
    (FVal.abs (y.getD i (.fin 0))).lt threshold = false ∧
    (sanitize y err).getD i (.fin 0) = err.getD i (.fin 0) := by
  have hf : (FVal.abs (y.getD i (.fin 0))).lt threshold = false := by
    rw [hn]; rfl
  refine ⟨hf, ?_⟩
  rw [sanitize_getD y err i hy he, hf]
  simp

/-- Witness for C9: a NaN reference value lets the raw error `7` through. -/
theorem nan_reference_passthrough_witness :
    (FVal.abs ((([FVal.nan, FVal.fin 1] : List FVal)).getD 0 (.fin 0))).lt
        threshold = false ∧
    (sanitize [FVal.nan, FVal.fin 1] [FVal.fin 7, FVal.fin 2]).getD 0 (.fin 0)
      = (([FVal.fin 7, FVal.fin 2] : List FVal)).getD 0 (.fin 0) :=
  nan_reference_passthrough [FVal.nan, FVal.fin 1] [FVal.fin 7, FVal.fin 2] 0
    (by decide) (by decide) (by decide)

/-- C10: sanitization is idempotent: for equal-length columns, sanitizing
an already-sanitized error sequence with the same `y_actual` returns it
unchanged. -/
theorem sanitize_idempotent (y err : List FVal)
    (h : y.length = err.length) :
    sanitize y (sanitize y err) = sanitize y err :=
  sanitize_sanitize y err

/-- Witness for C10 at concrete equal-length columns. -/
theorem sanitize_idempotent_witness :
    sanitize [FVal.fin (2 / 10 ^ 310), FVal.fin 1]
        (sanitize [FVal.fin (2 / 10 ^ 310), FVal.fin 1]
          [FVal.fin 5, FVal.nan])
      = sanitize [FVal.fin (2 / 10 ^ 310), FVal.fin 1]
          [FVal.fin 5, FVal.nan] :=
  sanitize_idempotent [FVal.fin (2 / 10 ^ 310), FVal.fin 1]
    [FVal.fin 5, FVal.nan] (by decide)

/-- C7: if every target before `p` succeeds and loading/rendering/saving
fails at `p` with error `e`, the whole run aborts with `e` propagated, and
only targets strictly before `p` in the iteration order have produced a
figure — no target after `p` is rendered. -/
theorem run_fail_fast {E : Type} (step : String × List String → Except E Figure)
    (pre post : List (String × List String)) (p : String × List String)
    (e : E)
    (hpre : ∀ q ∈ pre, ∃ f, step q = Except.ok f)
    (hfail : step p = Except.error e) :
    (runLoop step (pre ++ p :: post)).2 = some e ∧
    ∀ q ∈ (runLoop step (pre ++ p :: post)).1, q.1 ∈ pre.map Prod.fst := by
  induction pre with
  | nil =>
    simp [runLoop, hfail]
  | cons a pre ih =>
    obtain ⟨f, hf⟩ := hpre a (by simp)
    have ih2 := ih fun q hq => hpre q (by simp [hq])
    simp only [List.cons_append, runLoop, hf]
    refine ⟨ih2.1, ?_⟩
    intro q hq
    rcases List.mem_cons.1 hq with hq | hq
    · subst hq; simp
    · simp only [List.map_cons, List.mem_cons]
      exact Or.inr (ih2.2 q hq)

/-- Witness for C7: with a step failing on `cdflower_approx`, running over
three targets yields the propagated error and figures only for the target
before the failure; the target after it is never rendered. -/
theorem run_fail_fast_witness :
    (runLoop failingStep
      [("pdf_approx", []), ("cdflower_approx", []),
        ("quantile_approx", [])]).2 = some "DataUnavailable" ∧
    ∀ q ∈ (runLoop failingStep
      [("pdf_approx", []), ("cdflower_approx", []),
        ("quantile_approx", [])]).1,
      q.1 ∈ ([("pdf_approx", ([] : List String))].map Prod.fst) :=
  run_fail_fast failingStep [("pdf_approx", [])] [("quantile_approx", [])]
    ("cdflower_approx", []) "DataUnavailable"
    (by
      intro q hq
      simp only [List.mem_singleton] at hq
      subst hq
      exact ⟨exampleFigure, rfl⟩)
    rfl

/-- C8: the per-target computation is deterministic: on equal datasets and
equal option lists, the rendered figure, the sanitized error sequence and
the axis configuration coincide. -/
theorem renderer_deterministic (d1 d2 : Dataset) (o1 o2 : List String)
    (hd : d1 = d2) (ho : o1 = o2) :
    renderTarget d1 o1 = renderTarget d2 o2 ∧
    sanitize d1.y d1.err = sanitize d2.y d2.err ∧
    configureAxes o1 = configureAxes o2 := by
  subst hd
  subst ho
  exact ⟨rfl, rfl, rfl⟩

/-- Witness for C8 on a concrete dataset and option list. -/
theorem renderer_deterministic_witness :
    renderTarget ⟨[FVal.fin 1], [FVal.fin 2], [FVal.fin 3]⟩ ["logx"]
      = renderTarget ⟨[FVal.fin 1], [FVal.fin 2], [FVal.fin 3]⟩ ["logx"] :=
  (renderer_deterministic ⟨[FVal.fin 1], [FVal.fin 2], [FVal.fin 3]⟩
    ⟨[FVal.fin 1], [FVal.fin 2], [FVal.fin 3]⟩ ["logx"] ["logx"] rfl rfl).1
